import Mathlib

/- Shallow embedding of the interactive file manager in src/fmgr.py.

   The operating-system gateway (os / shutil primitives) is modelled by an
   explicit record FS of pure oracles; a primitive that can raise returns
   Except.  Each Lean definition mirrors one Python function of the source,
   keeping its name where Lean allows.  The Python exception flow is made
   explicit: every try/except block of the source becomes a match on the
   Except value produced by the code it guards, and the mutation order of
   the source (which fields were already assigned when an exception is
   raised) is preserved. -/

namespace Fmgr

/-- Result of a fallible gateway primitive: Except.ok, or the message of a
raised exception. -/
abbrev FsResult := Except String Unit

/-- Gateway over the os / shutil primitives used by fmgr.py
(os.path.exists, os.path.isfile, os.path.isdir, os.listdir, shutil.copy2,
shutil.move, os.remove, shutil.rmtree). -/
structure FS where
  pathExists : String → Bool
  isFile : String → Bool
  isDir : String → Bool
  listdir : String → Except String (List String)
  copy2 : String → String → FsResult
  movePrim : String → String → FsResult
  remove : String → FsResult
  rmtree : String → FsResult

/-- One invocation of a mutating gateway primitive, recorded so that the
operations a bulk action performs can be traced. -/
inductive FsCall where
  | copyCall (src dest : String)
  | moveCall (src dest : String)
  | removeCall (p : String)
  | rmtreeCall (p : String)
deriving DecidableEq, Repr

/-- State of FileExplorer: fields current_path and
current_directory_contents of src/fmgr.py. -/
structure ExplorerState where
  current_path : String
  current_directory_contents : List String
deriving DecidableEq, Repr

/-- State of FileSelector: field selected_files of src/fmgr.py. -/
structure SelectorState where
  selected_files : List String
deriving DecidableEq, Repr

/-- Observable outcome of FileExplorer.navigate: successful navigation,
the `Cannot open file` report, or a caught exception printed as a
navigation error. -/
inductive NavOutcome where
  | navigated
  | cannotOpen (name : String)
  | navError (msg : String)
deriving DecidableEq, Repr

/-- Observable outcome of FileSelector.select_files_by_indices: the list
of selected paths, or the `Invalid input` report of the ValueError branch
(which returns the empty list). -/
inductive SelectResult where
  | selected (files : List String)
  | formatError
deriving DecidableEq, Repr

/-- Outcome of FileManager._process_files: the selector state after the
call, the paths on which the per-item action was invoked (in order), the
gateway calls performed, the returned count, and the message passed to
UserInterface.error when an exception was caught. -/
structure BatchResult where
  selAfter : SelectorState
  attempted : List String
  trace : List FsCall
  count : Nat
  uiError : Option String
deriving DecidableEq, Repr

/-- Boolean test that an FsResult is the ok outcome (no exception). -/
def exceptOk : FsResult → Bool
  | Except.ok _ => true
  | Except.error _ => false

/-- Whether a string begins with the path separator. -/
def headIsSlash (s : String) : Bool :=
  match s.data with
  | '/' :: _ => true
  | _ => false

/-- Whether a string ends with the path separator. -/
def lastIsSlash (s : String) : Bool :=
  match s.data.reverse with
  | '/' :: _ => true
  | _ => false

/-- os.path.join for the cases arising here (the second component is a
directory entry name, the first a path). -/
def pathJoin (a b : String) : String :=
  if headIsSlash b then b
  else if a = "" ∨ lastIsSlash a then a ++ b
  else a ++ "/" ++ b

/-- Python list indexing `l[i]`: nonnegative positions, negative positions
counted from the end, IndexError (none) otherwise. -/
def pyIndex (l : List String) (i : Int) : Option String :=
  if 0 ≤ i ∧ i < (l.length : Int) then some (l.getD i.toNat "")
  else if -(l.length : Int) ≤ i ∧ i < 0 then some (l.getD (i + l.length).toNat "")
  else none

/-- Whitespace characters removed by the Python str.strip default. -/
def pyIsSpace (c : Char) : Bool :=
  c == ' ' || c == '\t' || c == '\n' || c == '\r' || c == '\x0B' || c == '\x0C'

/-- Python str.strip with the default argument: drop whitespace from both
ends. -/
def pyStrip (s : String) : String :=
  ⟨((s.data.dropWhile pyIsSpace).reverse.dropWhile pyIsSpace).reverse⟩

/-- Value of a decimal digit character, none for any other character. -/
def digitVal (c : Char) : Option Nat :=
  if 48 ≤ c.toNat ∧ c.toNat ≤ 57 then some (c.toNat - 48) else none

/-- Accumulating decimal read of a character list; none at the first
non-digit. -/
def digitsValAux : List Char → Nat → Option Nat
  | [], acc => some acc
  | c :: cs, acc =>
    match digitVal c with
    | some d => digitsValAux cs (acc * 10 + d)
    | none => none

/-- Decimal value of a nonempty all-digit character list. -/
def digitsVal : List Char → Option Nat
  | [] => none
  | cs => digitsValAux cs 0

/-- Python `int(token.strip())`: optional sign followed by one or more
digits after trimming surrounding whitespace; none models the
ValueError. -/
def parseIntToken (s : String) : Option Int :=
  match (pyStrip s).data with
  | '-' :: rest => (digitsVal rest).map (fun n => -(n : Int))
  | '+' :: rest => (digitsVal rest).map (fun n => (n : Int))
  | cs => (digitsVal cs).map (fun n => (n : Int))

/-- Python str.split on a comma, keeping empty fields (the split of the
empty string is one empty field). -/
def splitCommas : List Char → List (List Char)
  | [] => [[]]
  | c :: cs =>
    if c == ',' then [] :: splitCommas cs
    else
      match splitCommas cs with
      | t :: ts => (c :: t) :: ts
      | [] => [[c]]

/-- Python `input.split(m)` with a comma separator, as strings. -/
def pySplitCommas (s : String) : List String :=
  (splitCommas s.data).map (fun cs => ⟨cs⟩)

/-- The list comprehension `[int(i.strip()) for i in s.split(sep)]`: all
tokens must parse, a single ValueError rejects the whole list. -/
def parseTokens : List String → Option (List Int)
  | [] => some []
  | t :: rest =>
    match parseIntToken t, parseTokens rest with
    | some i, some is => some (i :: is)
    | _, _ => none

/-- `[int(i.strip()) for i in input.split(m)]` over the comma-separated
raw input of FileSelector.select_files_by_indices. -/
def parseIndices (input : String) : Option (List Int) :=
  parseTokens (pySplitCommas input)

/-- FileExplorer.subset (src/fmgr.py lines 127-134): keep each index in
`[0, len(contents))`, join the entry at that index onto current_path, in
input order; any other index contributes nothing. -/
def subset (ex : ExplorerState) : List Int → List String
  | [] => []
  | index :: rest =>
    if 0 ≤ index ∧ index < (ex.current_directory_contents.length : Int) then
      pathJoin ex.current_path (ex.current_directory_contents.getD index.toNat "")
        :: subset ex rest
    else subset ex rest

/-- FileSelector.select_files_by_indices (src/fmgr.py lines 59-76): the
whole comprehension runs before `self.selected_files` is assigned, so a
ValueError leaves the stored selection untouched and returns the empty
list; on success the parsed indices are resolved through subset and the
result replaces the stored selection. -/
def select_files_by_indices (sel : SelectorState) (input : String)
    (ex : ExplorerState) : SelectorState × SelectResult :=
  match parseIndices input with
  | some idxs =>
    let files := subset ex idxs
    (⟨files⟩, SelectResult.selected files)
  | none => (sel, SelectResult.formatError)

/-- FileSelector.get_and_reset (src/fmgr.py lines 78-82): return a copy of
the selection and clear it. -/
def get_and_reset (sel : SelectorState) : List String × SelectorState :=
  (sel.selected_files, ⟨[]⟩)

/-- FileExplorer._set_current_path (src/fmgr.py lines 89-92):
`self.current_path = path` runs first, then `os.listdir`; if the listing
raises, the exception escapes with current_path already updated and the
old contents retained.  The Option String is the escaped exception. -/
def set_current_path (fs : FS) (st : ExplorerState) (path : String) :
    ExplorerState × Option String :=
  match fs.listdir path with
  | Except.ok l => (⟨path, l⟩, none)
  | Except.error e => (⟨path, st.current_directory_contents⟩, some e)

/-- FileExplorer.navigate (src/fmgr.py lines 108-120): index the contents
Python-style (an IndexError is caught by the surrounding try), join, and
either descend into a directory via set_current_path (whose exception is
also caught and printed as a navigation error) or report that a file
cannot be opened. -/
def navigate (fs : FS) (st : ExplorerState) (index : Int) :
    ExplorerState × NavOutcome :=
  match pyIndex st.current_directory_contents index with
  | none => (st, NavOutcome.navError "list index out of range")
  | some selected_element =>
    if fs.isDir (pathJoin st.current_path selected_element) then
      match set_current_path fs st (pathJoin st.current_path selected_element) with
      | (st2, none) => (st2, NavOutcome.navigated)
      | (st2, some e) => (st2, NavOutcome.navError e)
    else (st, NavOutcome.cannotOpen selected_element)

/-- StdFileSystem.copy (src/fmgr.py lines 27-30): skip when the source
does not exist, otherwise invoke shutil.copy2 (which may raise). -/
def stdCopy (fs : FS) (src dest : String) : List FsCall × FsResult :=
  if fs.pathExists src then ([FsCall.copyCall src dest], fs.copy2 src dest)
  else ([], Except.ok ())

/-- StdFileSystem.move (src/fmgr.py lines 32-35): skip when the source
does not exist, otherwise invoke shutil.move (which may raise). -/
def stdMove (fs : FS) (src dest : String) : List FsCall × FsResult :=
  if fs.pathExists src then ([FsCall.moveCall src dest], fs.movePrim src dest)
  else ([], Except.ok ())

/-- StdFileSystem.delete (src/fmgr.py lines 37-42): os.remove for a
regular file, shutil.rmtree for a directory, nothing otherwise. -/
def stdDelete (fs : FS) (path : String) : List FsCall × FsResult :=
  if fs.isFile path then ([FsCall.removeCall path], fs.remove path)
  else if fs.isDir path then ([FsCall.rmtreeCall path], fs.rmtree path)
  else ([], Except.ok ())

/-- The `for file in selected_files: action(file, destination)` loop of
FileManager._process_files: runs the per-item action left to right and
stops at the first raised exception.  Returns the paths on which the
action was invoked, the gateway calls performed, and the loop result. -/
def runBatch (action : String → List FsCall × FsResult) :
    List String → List String × List FsCall × FsResult
  | [] => ([], [], Except.ok ())
  | f :: rest =>
    match action f with
    | (cs, Except.ok _) =>
      (f :: (runBatch action rest).1,
       cs ++ (runBatch action rest).2.1,
       (runBatch action rest).2.2)
    | (cs, Except.error e) => ([f], cs, Except.error e)

/-- Gateway calls a per-item action performs on each path of a list, in
order, with no call omitted and none added. -/
def batchCalls (action : String → List FsCall × FsResult) : List String → List FsCall
  | [] => []
  | f :: rest => (action f).1 ++ batchCalls action rest

/-- FileManager._process_files (src/fmgr.py lines 143-152): consume the
selection with get_and_reset, run the loop, and return the consumed
length; a raised exception is caught once for the whole batch, reported
through ui.error as `title: message`, and the call returns 0. -/
def processFiles (title : String) (sel : SelectorState)
    (action : String → List FsCall × FsResult) : BatchResult :=
  match (runBatch action (get_and_reset sel).1).2.2 with
  | Except.ok _ =>
    ⟨(get_and_reset sel).2,
     (runBatch action (get_and_reset sel).1).1,
     (runBatch action (get_and_reset sel).1).2.1,
     (get_and_reset sel).1.length, none⟩
  | Except.error e =>
    ⟨(get_and_reset sel).2,
     (runBatch action (get_and_reset sel).1).1,
     (runBatch action (get_and_reset sel).1).2.1,
     0, some (title ++ ": " ++ e)⟩

/-- FileManager.copy_files (src/fmgr.py lines 154-156). -/
def copy_files (fs : FS) (sel : SelectorState) (destination : String) : BatchResult :=
  processFiles "Copy" sel (fun f => stdCopy fs f destination)

/-- FileManager.move_files (src/fmgr.py lines 158-160). -/
def move_files (fs : FS) (sel : SelectorState) (destination : String) : BatchResult :=
  processFiles "Move" sel (fun f => stdMove fs f destination)

/-- FileManager.delete_files (src/fmgr.py lines 162-164). -/
def delete_files (fs : FS) (sel : SelectorState) : BatchResult :=
  processFiles "Delete" sel (fun f => stdDelete fs f)

/- Concrete gateway fixtures used by counterexamples and witnesses. -/

/-- Gateway where every path exists and copying the file named a raises;
every other primitive succeeds. -/
def fsCopyFail : FS where
  pathExists := fun _ => true
  isFile := fun _ => true
  isDir := fun _ => false
  listdir := fun _ => Except.ok []
  copy2 := fun src _ => if src == "a" then Except.error "denied" else Except.ok ()
  movePrim := fun _ _ => Except.ok ()
  remove := fun _ => Except.ok ()
  rmtree := fun _ => Except.ok ()

/-- Gateway with one subdirectory /r/sub of /r whose listing succeeds. -/
def fsNav : FS where
  pathExists := fun _ => true
  isFile := fun _ => false
  isDir := fun p => p == "/r/sub"
  listdir := fun p => if p == "/r/sub" then Except.ok ["x"] else Except.ok ["sub"]
  copy2 := fun _ _ => Except.ok ()
  movePrim := fun _ _ => Except.ok ()
  remove := fun _ => Except.ok ()
  rmtree := fun _ => Except.ok ()

/-- Gateway with one subdirectory /r/sub of /r whose listing is denied. -/
def fsDenied : FS where
  pathExists := fun _ => true
  isFile := fun _ => false
  isDir := fun p => p == "/r/sub"
  listdir := fun p => if p == "/r/sub" then Except.error "Permission denied" else Except.ok ["sub"]
  copy2 := fun _ _ => Except.ok ()
  movePrim := fun _ _ => Except.ok ()
  remove := fun _ => Except.ok ()
  rmtree := fun _ => Except.ok ()

/-- Gateway where /r/a.txt is a regular file and nothing is a directory. -/
def fsFile : FS where
  pathExists := fun _ => true
  isFile := fun p => p == "/r/a.txt"
  isDir := fun _ => false
  listdir := fun _ => Except.ok ["a.txt"]
  copy2 := fun _ _ => Except.ok ()
  movePrim := fun _ _ => Except.ok ()
  remove := fun _ => Except.ok ()
  rmtree := fun _ => Except.ok ()

/-- Gateway where f is a regular file, d is a directory whose recursive
delete raises, and file deletion succeeds. -/
def fsDel : FS where
  pathExists := fun _ => true
  isFile := fun p => p == "f"
  isDir := fun p => p == "d"
  listdir := fun _ => Except.ok []
  copy2 := fun _ _ => Except.ok ()
  movePrim := fun _ _ => Except.ok ()
  remove := fun _ => Except.ok ()
  rmtree := fun p => if p == "d" then Except.error "denied" else Except.ok ()

/- Helper lemmas about the loop of FileManager._process_files. -/

/-- exceptOk on the ok constructor. -/
theorem exceptOk_ok (u : Unit) : exceptOk (Except.ok u) = true := rfl

/-- exceptOk on the error constructor. -/
theorem exceptOk_error (e : String) : exceptOk (Except.error e) = false := rfl

/-- The loop result is ok exactly when the per-item action raises on no
element of the list. -/
theorem runBatch_ok_iff (action : String → List FsCall × FsResult) :
    ∀ files : List String,
      exceptOk (runBatch action files).2.2 = files.all (fun f => exceptOk (action f).2)
  | [] => rfl
  | f :: rest => by
    cases h : action f with
    | mk cs r =>
      cases r with
      | ok u =>
        have ih := runBatch_ok_iff action rest
        simp [runBatch, h, exceptOk_ok, ih]
      | error e => simp [runBatch, h, exceptOk_error]

/-- The gateway calls the loop performs are exactly the calls of the
per-item action on the paths it reached, in order. -/
theorem runBatch_trace (action : String → List FsCall × FsResult) :
    ∀ files : List String,
      (runBatch action files).2.1 = batchCalls action (runBatch action files).1
  | [] => rfl
  | f :: rest => by
    cases h : action f with
    | mk cs r =>
      cases r with
      | ok u =>
        have ih := runBatch_trace action rest
        simp [runBatch, batchCalls, h, ih]
      | error e => simp [runBatch, batchCalls, h]

/-- The paths the loop reached form an initial segment of the list. -/
theorem runBatch_attempted_extend (action : String → List FsCall × FsResult) :
    ∀ files : List String, ∃ rest2, files = (runBatch action files).1 ++ rest2
  | [] => ⟨[], rfl⟩
  | f :: rest => by
    cases h : action f with
    | mk cs r =>
      cases r with
      | ok u =>
        obtain ⟨r2, hr2⟩ := runBatch_attempted_extend action rest
        refine ⟨r2, ?_⟩
        have hcons : (runBatch action (f :: rest)).1 = f :: (runBatch action rest).1 := by
          simp [runBatch, h]
        rw [hcons, List.cons_append, ← hr2]
      | error e =>
        refine ⟨rest, ?_⟩
        have hcons : (runBatch action (f :: rest)).1 = [f] := by simp [runBatch, h]
        rw [hcons]
        rfl

/-- When the action raises on no element, the loop reaches every path. -/
theorem runBatch_all_ok (action : String → List FsCall × FsResult) :
    ∀ files : List String, files.all (fun f => exceptOk (action f).2) = true →
      (runBatch action files).1 = files
  | [], _ => rfl
  | f :: rest, h => by
    rw [List.all_cons, Bool.and_eq_true] at h
    cases ha : action f with
    | mk cs r =>
      cases r with
      | ok u => simp [runBatch, ha, runBatch_all_ok action rest h.2]
      | error e =>
        exfalso
        have h1 := h.1
        rw [ha] at h1
        simp [exceptOk_error] at h1

/-- Splitting the loop at the first raising element: everything before it
succeeds, it raises, and the loop stops there with only the forward calls
performed. -/
theorem runBatch_append_error (action : String → List FsCall × FsResult)
    (f : String) (cs : List FsCall) (e : String) (post : List String) :
    ∀ pre : List String, pre.all (fun g => exceptOk (action g).2) = true →
      action f = (cs, Except.error e) →
      runBatch action (pre ++ f :: post) =
        (pre ++ [f], batchCalls action pre ++ cs, Except.error e)
  | [], _, hf => by simp [runBatch, hf, batchCalls]
  | g :: pre, h, hf => by
    rw [List.all_cons, Bool.and_eq_true] at h
    cases hg : action g with
    | mk cs2 r =>
      cases r with
      | ok u =>
        have ih := runBatch_append_error action f cs e post pre h.2 hf
        simp [runBatch, hg, batchCalls, ih]
      | error e2 =>
        exfalso
        have h1 := h.1
        rw [hg] at h1
        simp [exceptOk_error] at h1

/-- _process_files always leaves the selector empty. -/
theorem processFiles_selAfter (title : String) (sel : SelectorState)
    (action : String → List FsCall × FsResult) :
    (processFiles title sel action).selAfter = ⟨[]⟩ := by
  unfold processFiles
  split <;> rfl

/-- The paths _process_files invoked the action on are those the loop
reached. -/
theorem processFiles_attempted (title : String) (sel : SelectorState)
    (action : String → List FsCall × FsResult) :
    (processFiles title sel action).attempted = (runBatch action sel.selected_files).1 := by
  unfold processFiles
  split <;> rfl

/-- The gateway calls _process_files performed are those of the loop. -/
theorem processFiles_trace (title : String) (sel : SelectorState)
    (action : String → List FsCall × FsResult) :
    (processFiles title sel action).trace = (runBatch action sel.selected_files).2.1 := by
  unfold processFiles
  split <;> rfl

/-- _process_files on an empty selection does nothing and returns 0. -/
theorem processFiles_empty (title : String)
    (action : String → List FsCall × FsResult) :
    processFiles title ⟨[]⟩ action = ⟨⟨[]⟩, [], [], 0, none⟩ := rfl

/-- A ValueError on any token rejects the whole comprehension. -/
theorem parseTokens_eq_none (t : String) :
    ∀ ts : List String, t ∈ ts → parseIntToken t = none → parseTokens ts = none
  | [], h, _ => absurd h (List.not_mem_nil t)
  | s :: rest, h, hn => by
    rcases List.mem_cons.mp h with h1 | h2
    · subst h1
      simp [parseTokens, hn]
    · have hr := parseTokens_eq_none t rest h2 hn
      cases hs : parseIntToken s <;> simp [parseTokens, hs, hr]

/-- Python indexing at a nonnegative in-range position. -/
theorem pyIndex_of_nonneg (l : List String) (i : Int) (h0 : 0 ≤ i)
    (h1 : i < (l.length : Int)) : pyIndex l i = some (l.getD i.toNat "") := by
  simp [pyIndex, h0, h1]

/-- Python indexing raises IndexError outside `[-len, len)`. -/
theorem pyIndex_out (l : List String) (i : Int)
    (h : i < -(l.length : Int) ∨ (l.length : Int) ≤ i) : pyIndex l i = none := by
  have h2 : ¬ (0 ≤ i ∧ i < (l.length : Int)) := by omega
  have h3 : ¬ (-(l.length : Int) ≤ i ∧ i < 0) := by omega
  simp [pyIndex, h2, h3]

/-- Python indexing at a negative in-range position counts from the end. -/
theorem pyIndex_neg (l : List String) (i : Int) (h0 : -(l.length : Int) ≤ i)
    (h1 : i < 0) : pyIndex l i = some (l.getD (i + l.length).toNat "") := by
  have h2 : ¬ (0 ≤ i ∧ i < (l.length : Int)) := by omega
  simp [pyIndex, h2, h0, h1]

/- Claim theorems. -/

/-- Claim C1 counterexample: with a selection of two existing files where
the gateway copy of the first raises, the failure is reported but the
second selected item is never attempted, so the batch does not continue
to the next item as the claim states. -/
theorem C1_batch_continue_counterexample :
    (copy_files fsCopyFail ⟨["a", "b"]⟩ "dest").uiError = some "Copy: denied" ∧
    "b" ∈ (SelectorState.mk ["a", "b"]).selected_files ∧
    (copy_files fsCopyFail ⟨["a", "b"]⟩ "dest").attempted = ["a"] ∧
    "b" ∉ (copy_files fsCopyFail ⟨["a", "b"]⟩ "dest").attempted := by
  decide

/-- Claim C1 (amended): when the per-item gateway operation of a bulk
action raises on one item, that failure is reported to the UI once and
the batch ABORTS: the items before the failing one and the failing item
itself are the only ones attempted, the items after it are not attempted,
no operation beyond those forward gateway calls is invoked (in particular
nothing is rolled back), and the call returns 0. -/
theorem C1_per_item_failure_aborts_batch (title : String)
    (action : String → List FsCall × FsResult) (pre post : List String)
    (f e : String) (cs : List FsCall)
    (hpre : pre.all (fun g => exceptOk (action g).2) = true)
    (hf : action f = (cs, Except.error e)) :
    (processFiles title ⟨pre ++ f :: post⟩ action).uiError = some (title ++ ": " ++ e) ∧
    (processFiles title ⟨pre ++ f :: post⟩ action).attempted = pre ++ [f] ∧
    (processFiles title ⟨pre ++ f :: post⟩ action).trace = batchCalls action pre ++ cs ∧
    (processFiles title ⟨pre ++ f :: post⟩ action).count = 0 := by
  have hr := runBatch_append_error action f cs e post pre hpre hf
  refine ⟨?_, ?_, ?_, ?_⟩ <;> simp [processFiles, get_and_reset, hr]

/-- Claim C1 witness: the amended statement at a concrete gateway,
selection and destination. -/
theorem C1_per_item_failure_aborts_batch_witness :
    (processFiles "Copy" ⟨["p"] ++ "a" :: ["b"]⟩
        (fun s => stdCopy fsCopyFail s "dest")).uiError =
      some ("Copy" ++ ": " ++ "denied") ∧
    (processFiles "Copy" ⟨["p"] ++ "a" :: ["b"]⟩
        (fun s => stdCopy fsCopyFail s "dest")).attempted = ["p"] ++ ["a"] ∧
    (processFiles "Copy" ⟨["p"] ++ "a" :: ["b"]⟩
        (fun s => stdCopy fsCopyFail s "dest")).trace =
      batchCalls (fun s => stdCopy fsCopyFail s "dest") ["p"] ++ [FsCall.copyCall "a" "dest"] ∧
    (processFiles "Copy" ⟨["p"] ++ "a" :: ["b"]⟩
        (fun s => stdCopy fsCopyFail s "dest")).count = 0 :=
  C1_per_item_failure_aborts_batch "Copy" (fun s => stdCopy fsCopyFail s "dest")
    ["p"] ["b"] "a" "denied" [FsCall.copyCall "a" "dest"] (by decide) rfl

/-- Claim C2 counterexample: a consumed selection of size two where the
first copy raises makes the bulk action return 0, not the selection size
at consume time. -/
theorem C2_count_counterexample :
    (SelectorState.mk ["a", "b"]).selected_files.length = 2 ∧
    (copy_files fsCopyFail ⟨["a", "b"]⟩ "dest").count = 0 ∧
    (copy_files fsCopyFail ⟨["a", "b"]⟩ "dest").count ≠ 2 := by
  decide

/-- Claim C2 (amended): a bulk action returns the size of the selection
at the moment it was consumed whenever no per-item operation raises
(regardless of how many items the gateway silently skipped), and returns
0 as soon as any per-item operation raises. -/
theorem C2_count_consumed_iff_no_exception (title : String) (sel : SelectorState)
    (action : String → List FsCall × FsResult) :
    (processFiles title sel action).count =
      if sel.selected_files.all (fun f => exceptOk (action f).2) then
        sel.selected_files.length
      else 0 := by
  have h := runBatch_ok_iff action sel.selected_files
  cases hr : (runBatch action sel.selected_files).2.2 with
  | ok u =>
    rw [hr, exceptOk_ok] at h
    have h2 : sel.selected_files.all (fun f => exceptOk (action f).2) = true := h.symm
    simp [processFiles, get_and_reset, hr, h2]
  | error e =>
    rw [hr, exceptOk_error] at h
    have h2 : sel.selected_files.all (fun f => exceptOk (action f).2) = false := h.symm
    simp [processFiles, get_and_reset, hr, h2]

/-- Claim C3 counterexample: with a non-empty prior selection, a raw
input whose token is not an integer is rejected but the stored selection
is left at its prior non-empty value, not empty as the claim states. -/
theorem C3_selection_left_empty_counterexample :
    (select_files_by_indices ⟨["/h/x"]⟩ "abc" ⟨"/h", ["x", "y"]⟩).1.selected_files
      = ["/h/x"] ∧
    (select_files_by_indices ⟨["/h/x"]⟩ "abc" ⟨"/h", ["x", "y"]⟩).1.selected_files
      ≠ [] ∧
    (select_files_by_indices ⟨["/h/x"]⟩ "abc" ⟨"/h", ["x", "y"]⟩).2
      = SelectResult.formatError := by
  decide

/-- Claim C3 (amended): for every raw input containing a token that is
not an integer and every prior selection state, select_files_by_indices
fails with the format error, returns no selection, and leaves the stored
selection unchanged - in particular still empty when it was empty, and no
prefix of the input is applied. -/
theorem C3_format_error_leaves_selection_unchanged (sel : SelectorState)
    (input : String) (ex : ExplorerState) (t : String)
    (h1 : t ∈ pySplitCommas input) (h2 : parseIntToken t = none) :
    select_files_by_indices sel input ex = (sel, SelectResult.formatError) := by
  have hp : parseIndices input = none := parseTokens_eq_none t (pySplitCommas input) h1 h2
  simp [select_files_by_indices, hp]

/-- Claim C3 witness: the amended statement at a concrete malformed
input and non-empty prior selection. -/
theorem C3_format_error_witness :
    select_files_by_indices ⟨["/h/x"]⟩ "abc" ⟨"/h", ["x", "y"]⟩ =
      (⟨["/h/x"]⟩, SelectResult.formatError) :=
  C3_format_error_leaves_selection_unchanged ⟨["/h/x"]⟩ "abc" ⟨"/h", ["x", "y"]⟩
    "abc" (by decide) (by decide)

/-- Claim C4 (confirmed): for every list of parsed integer indices and
every directory snapshot, subset returns exactly the joined absolute
paths of the entries at the indices lying in `[0, len(children))`, in
input order, and every other index (negative ones included) is silently
skipped, contributing nothing and raising no error. -/
theorem C4_subset_in_range_input_order (ex : ExplorerState) (idxs : List Int) :
    subset ex idxs = idxs.filterMap (fun i =>
      if 0 ≤ i ∧ i < (ex.current_directory_contents.length : Int) then
        some (pathJoin ex.current_path (ex.current_directory_contents.getD i.toNat ""))
      else none) := by
  induction idxs with
  | nil => rfl
  | cons i rest ih =>
    by_cases h : 0 ≤ i ∧ i < (ex.current_directory_contents.length : Int) <;>
      simp [subset, List.filterMap_cons, h, ih]

/-- Claim C5 (confirmed): get_and_reset returns the current selection and
clears it in the same step; every bulk action consumes through it, so
after any bulk action the stored selection is empty, a second consume
returns the empty sequence, and a repeated bulk action of any of the
three kinds attempts nothing and returns 0. -/
theorem C5_consume_drains_selection (sel : SelectorState) (title title2 : String)
    (action action2 : String → List FsCall × FsResult) (fs : FS) (dest : String) :
    (get_and_reset sel).1 = sel.selected_files ∧
    (get_and_reset sel).2.selected_files = [] ∧
    (processFiles title sel action).selAfter.selected_files = [] ∧
    (get_and_reset (processFiles title sel action).selAfter).1 = [] ∧
    (processFiles title2 (processFiles title sel action).selAfter action2).attempted = [] ∧
    (processFiles title2 (processFiles title sel action).selAfter action2).count = 0 ∧
    (copy_files fs (copy_files fs sel dest).selAfter dest).count = 0 ∧
    (move_files fs (move_files fs sel dest).selAfter dest).count = 0 ∧
    (delete_files fs (delete_files fs sel).selAfter).count = 0 := by
  refine ⟨rfl, rfl, ?_, ?_, ?_, ?_, ?_, ?_, ?_⟩ <;>
    simp [copy_files, move_files, delete_files, processFiles_selAfter,
      processFiles_empty, get_and_reset]

/-- Claim C6 counterexample: navigating into a subdirectory whose listing
is denied leaves the explorer with current_path pointing at the new
directory while children still lists the old one - the state is not left
unchanged and the partially updated state is visible. -/
theorem C6_state_unchanged_counterexample :
    navigate fsDenied ⟨"/r", ["sub"]⟩ 0 =
      (⟨"/r/sub", ["sub"]⟩, NavOutcome.navError "Permission denied") ∧
    (navigate fsDenied ⟨"/r", ["sub"]⟩ 0).1 ≠ ⟨"/r", ["sub"]⟩ ∧
    (navigate fsDenied ⟨"/r", ["sub"]⟩ 0).1.current_path ≠ "/r" := by
  decide

/-- Claim C6 (amended): after a successful navigation children is a fresh
listing of currentPath; but when setting the new path fails because the
listing is denied, currentPath has already been updated to the attempted
directory while children retains the previous listing, so a partially
updated state is visible (the exception itself is caught and reported). -/
theorem C6_failed_listing_partial_state (fs : FS) (st : ExplorerState) (i : Int)
    (name e : String)
    (h1 : pyIndex st.current_directory_contents i = some name)
    (h2 : fs.isDir (pathJoin st.current_path name) = true) :
    ((navigate fs st i).2 = NavOutcome.navigated →
      fs.listdir (navigate fs st i).1.current_path =
        Except.ok (navigate fs st i).1.current_directory_contents) ∧
    (fs.listdir (pathJoin st.current_path name) = Except.error e →
      (navigate fs st i).1 =
        ⟨pathJoin st.current_path name, st.current_directory_contents⟩ ∧
      (navigate fs st i).2 = NavOutcome.navError e) := by
  cases hl : fs.listdir (pathJoin st.current_path name) with
  | ok l =>
    have hn : navigate fs st i =
        (⟨pathJoin st.current_path name, l⟩, NavOutcome.navigated) := by
      simp [navigate, h1, h2, set_current_path, hl]
    constructor
    · intro _
      rw [hn]
      exact hl
    · intro he
      cases he
  | error e2 =>
    have hn : navigate fs st i =
        (⟨pathJoin st.current_path name, st.current_directory_contents⟩,
          NavOutcome.navError e2) := by
      simp [navigate, h1, h2, set_current_path, hl]
    constructor
    · intro hc
      rw [hn] at hc
      cases hc
    · intro he
      injection he with he2
      subst he2
      rw [hn]
      exact ⟨rfl, rfl⟩

/-- Claim C6 witness: the amended statement at a concrete denied
directory, extracting the partially updated state. -/
theorem C6_failed_listing_witness :
    (navigate fsDenied ⟨"/r", ["sub"]⟩ 0).1 = ⟨"/r/sub", ["sub"]⟩ ∧
    (navigate fsDenied ⟨"/r", ["sub"]⟩ 0).2 = NavOutcome.navError "Permission denied" :=
  (C6_failed_listing_partial_state fsDenied ⟨"/r", ["sub"]⟩ 0 "sub"
    "Permission denied" (by decide) (by decide)).2 rfl

/-- Claim C7 counterexample: the negative index -1 lies outside
`[0, len(children))`, yet descend on it does not fail: it resolves to the
last entry Python-style and navigation occurs, changing the state. -/
theorem C7_negative_index_counterexample :
    ((-1 : Int) < 0) ∧
    navigate fsNav ⟨"/r", ["sub"]⟩ (-1) = (⟨"/r/sub", ["x"]⟩, NavOutcome.navigated) ∧
    (navigate fsNav ⟨"/r", ["sub"]⟩ (-1)).1 ≠ ⟨"/r", ["sub"]⟩ := by
  decide

/-- Claim C7 (amended): descend fails with the caught IndexError message
and leaves the state unchanged exactly for indices below -len(children)
or at least len(children); a negative index in `[-len(children), 0)` is
instead interpreted Python-style as index + len(children) and navigation
proceeds on that entry. -/
theorem C7_out_of_range_and_negative_indexing (fs : FS) (st : ExplorerState) (i : Int) :
    ((i < -(st.current_directory_contents.length : Int) ∨
        (st.current_directory_contents.length : Int) ≤ i) →
      navigate fs st i = (st, NavOutcome.navError "list index out of range")) ∧
    (-(st.current_directory_contents.length : Int) ≤ i → i < 0 →
      navigate fs st i = navigate fs st (i + st.current_directory_contents.length)) := by
  constructor
  · intro h
    simp [navigate, pyIndex_out st.current_directory_contents i h]
  · intro h0 h1
    have e1 := pyIndex_neg st.current_directory_contents i h0 h1
    have h2 : (0 : Int) ≤ i + st.current_directory_contents.length := by omega
    have h3 : i + (st.current_directory_contents.length : Int) <
        st.current_directory_contents.length := by omega
    have e2 := pyIndex_of_nonneg st.current_directory_contents
      (i + st.current_directory_contents.length) h2 h3
    unfold navigate
    rw [e1, e2]

/-- Claim C7 witness: the amended statement at a concrete index past the
end of the listing. -/
theorem C7_out_of_range_witness :
    navigate fsNav ⟨"/r", ["sub"]⟩ 5 =
      (⟨"/r", ["sub"]⟩, NavOutcome.navError "list index out of range") :=
  (C7_out_of_range_and_negative_indexing fsNav ⟨"/r", ["sub"]⟩ 5).1 (by decide)

/-- Claim C8 (confirmed): descend on an in-range index whose entry is a
regular file (not a directory) does not throw, reports that the file
cannot be opened, and leaves currentPath and children unchanged. -/
theorem C8_navigate_file_leaves_state (fs : FS) (st : ExplorerState) (i : Int)
    (name : String)
    (h0 : 0 ≤ i) (h1 : i < (st.current_directory_contents.length : Int))
    (h2 : st.current_directory_contents.getD i.toNat "" = name)
    (_h3 : fs.isFile (pathJoin st.current_path name) = true)
    (h4 : fs.isDir (pathJoin st.current_path name) = false) :
    navigate fs st i = (st, NavOutcome.cannotOpen name) := by
  have hp := pyIndex_of_nonneg st.current_directory_contents i h0 h1
  rw [h2] at hp
  simp [navigate, hp, h4]

/-- Claim C8 witness: the statement at a concrete listing whose first
entry is a regular file. -/
theorem C8_navigate_file_witness :
    navigate fsFile ⟨"/r", ["a.txt"]⟩ 0 =
      (⟨"/r", ["a.txt"]⟩, NavOutcome.cannotOpen "a.txt") :=
  C8_navigate_file_leaves_state fsFile ⟨"/r", ["a.txt"]⟩ 0 "a.txt"
    (by decide) (by decide) (by decide) (by decide) (by decide)

/-- Claim C9 counterexample: a consumed selection holding a directory
whose recursive delete raises followed by a regular file: the file is in
the consumed selection but no file-delete is invoked on it, because the
batch stops at the failing directory. -/
theorem C9_dispatch_counterexample :
    "f" ∈ (SelectorState.mk ["d", "f"]).selected_files ∧
    fsDel.isFile "f" = true ∧
    (delete_files fsDel ⟨["d", "f"]⟩).attempted = ["d"] ∧
    FsCall.removeCall "f" ∉ (delete_files fsDel ⟨["d", "f"]⟩).trace := by
  decide

/-- Claim C9 (amended): a delete action processes an initial segment of
the consumed selection - all of it when no primitive raises - and for
each path it reaches invokes exactly the dispatched primitive: os.remove
on a regular file, the recursive shutil.rmtree on a directory, and
nothing on any other path; its gateway trace contains those calls and no
others. -/
theorem C9_delete_dispatch_until_failure (fs : FS) (sel : SelectorState) :
    (∃ rest2, sel.selected_files = (delete_files fs sel).attempted ++ rest2) ∧
    (delete_files fs sel).trace =
      batchCalls (fun p => stdDelete fs p) (delete_files fs sel).attempted ∧
    (∀ p ∈ (delete_files fs sel).attempted,
      (stdDelete fs p).1 =
        if fs.isFile p then [FsCall.removeCall p]
        else if fs.isDir p then [FsCall.rmtreeCall p]
        else []) ∧
    (sel.selected_files.all (fun p => exceptOk (stdDelete fs p).2) = true →
      (delete_files fs sel).attempted = sel.selected_files) := by
  have hatt : (delete_files fs sel).attempted =
      (runBatch (fun p => stdDelete fs p) sel.selected_files).1 :=
    processFiles_attempted "Delete" sel (fun p => stdDelete fs p)
  have htr : (delete_files fs sel).trace =
      (runBatch (fun p => stdDelete fs p) sel.selected_files).2.1 :=
    processFiles_trace "Delete" sel (fun p => stdDelete fs p)
  refine ⟨?_, ?_, ?_, ?_⟩
  · rw [hatt]
    exact runBatch_attempted_extend (fun p => stdDelete fs p) sel.selected_files
  · rw [htr, hatt]
    exact runBatch_trace (fun p => stdDelete fs p) sel.selected_files
  · intro p _
    by_cases hf : fs.isFile p <;> by_cases hd : fs.isDir p <;>
      simp [stdDelete, hf, hd]
  · intro hall
    rw [hatt]
    exact runBatch_all_ok (fun p => stdDelete fs p) sel.selected_files hall

/-- Claim C9 witness: the amended statement at a concrete selection whose
every delete succeeds, reaching the whole selection. -/
theorem C9_delete_dispatch_witness :
    (delete_files fsDel ⟨["f"]⟩).attempted = ["f"] :=
  (C9_delete_dispatch_until_failure fsDel ⟨["f"]⟩).2.2.2 (by decide)

/-- Claim C10 (confirmed): when the per-item operation of a bulk action
raises, the selection has already been drained: the action reports the
failure and returns 0, the stored selection is empty, and a subsequent
bulk action of any kind without re-selecting attempts nothing and also
returns 0 - a failed batch cannot be retried from a retained selection. -/
theorem C10_failed_batch_drains_selection (title title2 : String)
    (sel : SelectorState)
    (action action2 : String → List FsCall × FsResult)
    (h : sel.selected_files.any (fun f => !(exceptOk (action f).2)) = true) :
    (processFiles title sel action).count = 0 ∧
    (processFiles title sel action).uiError.isSome = true ∧
    (processFiles title sel action).selAfter.selected_files = [] ∧
    (processFiles title2 (processFiles title sel action).selAfter action2).attempted = [] ∧
    (processFiles title2 (processFiles title sel action).selAfter action2).count = 0 := by
  have hall : sel.selected_files.all (fun f => exceptOk (action f).2) = false := by
    cases hb : sel.selected_files.all (fun f => exceptOk (action f).2) with
    | false => rfl
    | true =>
      exfalso
      rw [List.any_eq_true] at h
      obtain ⟨x, hx, hpx⟩ := h
      have hx2 := (List.all_eq_true.mp hb) x hx
      simp only at hx2
      rw [hx2] at hpx
      simp at hpx
  have hok := runBatch_ok_iff action sel.selected_files
  rw [hall] at hok
  cases hr : (runBatch action sel.selected_files).2.2 with
  | ok u =>
    rw [hr, exceptOk_ok] at hok
    cases hok
  | error e =>
    refine ⟨?_, ?_, ?_, ?_, ?_⟩ <;>
      simp [processFiles, get_and_reset, hr, runBatch]

/-- Claim C10 witness: the statement at a concrete failing copy batch
followed by a delete batch. -/
theorem C10_failed_batch_witness :
    (processFiles "Copy" ⟨["a"]⟩ (fun s => stdCopy fsCopyFail s "dest")).count = 0 ∧
    (processFiles "Copy" ⟨["a"]⟩ (fun s => stdCopy fsCopyFail s "dest")).uiError.isSome
      = true ∧
    (processFiles "Copy" ⟨["a"]⟩
        (fun s => stdCopy fsCopyFail s "dest")).selAfter.selected_files = [] ∧
    (processFiles "Delete"
        (processFiles "Copy" ⟨["a"]⟩ (fun s => stdCopy fsCopyFail s "dest")).selAfter
        (fun s => stdDelete fsCopyFail s)).attempted = [] ∧
    (processFiles "Delete"
        (processFiles "Copy" ⟨["a"]⟩ (fun s => stdCopy fsCopyFail s "dest")).selAfter
        (fun s => stdDelete fsCopyFail s)).count = 0 :=
  C10_failed_batch_drains_selection "Copy" "Delete" ⟨["a"]⟩
    (fun s => stdCopy fsCopyFail s "dest") (fun s => stdDelete fsCopyFail s) (by decide)

end Fmgr
